import Mathlib

/-!
Verification development for the contact/phone reconciliation subsystem of the
fadhi-front repository.

The embedding works on `List Char` for the string-processing core (a faithful
model of JavaScript string operations over the code points the code touches),
with `String`-level wrappers keeping the source names from
`src/utils/phoneUtils.ts` and the contacts service module.
-/

namespace PhoneUtils

/-- Model of `cleanPhoneNumber` (phoneUtils.ts): `phone.replace(/\D/g, '')`,
i.e. keep exactly the ASCII digit characters, in order. List-level core. -/
def cleanL (s : List Char) : List Char := s.filter (fun c => c.isDigit)

/-- Model of `cleanPhoneNumber`: remove all non-digit characters from a phone number. -/
def cleanPhoneNumber (phone : String) : String := ⟨cleanL phone.data⟩

/-- The fixed calling-code list scanned by `normalizeToE164`, in source order:
`['973', '966', '971', '965', '968', '974', '1', '44']`. -/
def commonCodes : List (List Char) :=
  [['9','7','3'], ['9','6','6'], ['9','7','1'], ['9','6','5'],
   ['9','6','8'], ['9','7','4'], ['1'], ['4','4']]

/-- The `for (const code of commonCodes) if (processedNumber.startsWith(code))`
loop of `normalizeToE164`: first code of the list that is a prefix of `t`. -/
def findCode : List (List Char) → List Char → Option (List Char)
  | [], _ => none
  | code :: rest, t => if code.isPrefixOf t then some code else findCode rest t

/-- List-level core of `normalizeToE164` (phoneUtils.ts lines 99-127):
strip non-digits; fail (empty) below 7 digits; strip one leading `00`;
return `+digits` if a known calling code is a prefix; else prepend the default
country code when 7 or 8 digits remain; else return `+digits` when at least 7
digits remain, and empty otherwise. -/
def normalizeToE164L (phone : List Char) (defaultCountryCode : List Char) : List Char :=
  let cleaned := cleanL phone
  if cleaned.length < 7 then []
  else
    let processedNumber := if List.isPrefixOf ['0','0'] cleaned then cleaned.drop 2 else cleaned
    match findCode commonCodes processedNumber with
    | some _ => '+' :: processedNumber
    | none =>
      if processedNumber.length = 8 ∨ processedNumber.length = 7 then
        '+' :: (defaultCountryCode ++ processedNumber)
      else if 7 ≤ processedNumber.length then '+' :: processedNumber
      else []

/-- Model of `normalizeToE164`: normalize a phone string to a single E.164-style string,
`''` on failure. The default country code defaults to `'973'` as in the source. -/
def normalizeToE164 (phone : String) (defaultCountryCode : String := "973") : String :=
  ⟨normalizeToE164L phone.data defaultCountryCode.data⟩

/-- Model of `generatePhoneVariants`: `[e164, e164 without the leading '+']`, or `[]`
when normalization fails.  The source builds a `Set` seeded with `e164` and
`e164.substring(1)` and converts it back to an array; since a non-empty `e164`
and `e164.substring(1)` have different lengths they are always distinct, so the
insertion-ordered list below is exactly the source's result. -/
def generatePhoneVariants (phone : String) : List String :=
  let e164 := normalizeToE164 phone
  if e164 = "" then []
  else [e164, ⟨e164.data.drop 1⟩]

/-- Model of `arePhoneNumbersEqual`: `variants1.some(v1 => variants2.includes(v1))`. -/
def arePhoneNumbersEqual (phone1 phone2 : String) : Bool :=
  let variants1 := generatePhoneVariants phone1
  let variants2 := generatePhoneVariants phone2
  variants1.any (fun v1 => variants2.contains v1)

end PhoneUtils

namespace ContactsService

open PhoneUtils

/-- Firestore `Timestamp` as used by the contacts module: only `.seconds` is read. -/
structure FsTimestamp where
  seconds : Nat
deriving DecidableEq

/-- Model of `UserProfile` (services/auth), restricted to the fields the contacts module
reads: `phone`, `username`, `isOnline`, `lastSeen`.  `lastSeen` is modelled as
optional because the code guards it with a truthiness check. -/
structure UserProfile where
  uid : String
  username : String
  phone : String
  isOnline : Bool
  lastSeen : Option FsTimestamp
deriving DecidableEq

/-- Model of `DeviceContact` of the contacts service module. -/
structure DeviceContact where
  id : String
  name : String
  firstName : Option String
  lastName : Option String
  phoneNumbers : List String
  normalizedPhones : List String
  imageUri : Option String
deriving DecidableEq

/-- Model of `AppContact extends DeviceContact`: the merged (reconciled) contact view.
`isOnline`/`lastSeen` stay absent (`undefined`) unless a user profile is linked;
`lastSeen` holds the epoch milliseconds of `new Date(lastSeen.seconds * 1000)`. -/
structure AppContact extends DeviceContact where
  userProfile : Option UserProfile
  isAppUser : Bool
  isOnline : Option Bool
  lastSeen : Option Nat
deriving DecidableEq

/-- Model of `ContactSyncCache`: the persisted reconciliation snapshot
`{ lastSyncTime, contacts, appUsers }`.  The phone-to-profile object is an
insertion-ordered association list with JavaScript property semantics. -/
structure ContactSyncCache where
  lastSyncTime : Nat
  contacts : List DeviceContact
  appUsers : List (String × UserProfile)
deriving DecidableEq

/-- The constant `SYNC_INTERVAL = 5 * 60 * 1000` milliseconds. -/
def SYNC_INTERVAL : Nat := 5 * 60 * 1000

/-- JavaScript object property read `m[k]`: first (and only) binding of key `k`. -/
def getKey : List (String × UserProfile) → String → Option UserProfile
  | [], _ => none
  | (k', v') :: rest, k => if k' = k then some v' else getKey rest k

/-- JavaScript object property write `m[k] = v`: overwrite in place if the key
exists, otherwise append (insertion order preserved). -/
def setKey : List (String × UserProfile) → String → UserProfile → List (String × UserProfile)
  | [], k, v => [(k, v)]
  | (k', v') :: rest, k, v =>
    if k' = k then (k', v) :: rest else (k', v') :: setKey rest k v

/-- JavaScript `a || b` for an optional string field: the default is used when
the field is absent or the empty string (falsy). -/
def jsOr (v : Option String) (dflt : String) : String :=
  match v with
  | some s => if s = "" then dflt else s
  | none => dflt

/-- JavaScript `String.prototype.trim`: drop whitespace from both ends. -/
def trimL (s : List Char) : List Char :=
  ((s.dropWhile (fun c => c.isWhitespace)).reverse.dropWhile (fun c => c.isWhitespace)).reverse

/-- A raw phone-number entry of the platform address book (`{ number?: string }`). -/
structure RawPhoneEntry where
  number : Option String
deriving DecidableEq

/-- A raw platform address-book entry, restricted to the fields
`fetchDeviceContacts` reads. -/
structure RawContact where
  id : Option String
  name : Option String
  firstName : Option String
  lastName : Option String
  phoneNumbers : Option (List RawPhoneEntry)
  imageUri : Option String
deriving DecidableEq

/-- The source's `.filter(phone => phone !== null)` applied to the results of
`normalizeToE164`: `normalizeToE164` returns a string (possibly `''`), never
`null`, so this test holds for every element. -/
def phoneNotNull (_phone : String) : Bool := true

/-- The processing pipeline of `fetchDeviceContacts` applied to the address-book
data: keep entries with at least one phone-number field, normalize every phone
number, filter with the `phone !== null` test, build the `DeviceContact`
(display name falling back to `firstName lastName`.trim()), and finally drop
contacts whose `normalizedPhones` list is empty. -/
def processDeviceContacts (data : List RawContact) : List DeviceContact :=
  ((data.filter (fun contact =>
      match contact.phoneNumbers with
      | some l => decide (0 < l.length)
      | none => false)).map (fun contact =>
      let phoneNumbers := (contact.phoneNumbers.getD []).map (fun phone => jsOr phone.number "")
      let normalizedPhones := (phoneNumbers.map (fun phone => normalizeToE164 phone)).filter phoneNotNull
      { id := jsOr contact.id ""
        name := jsOr contact.name
          ⟨trimL (jsOr contact.firstName "" ++ " " ++ jsOr contact.lastName "").data⟩
        firstName := contact.firstName
        lastName := contact.lastName
        phoneNumbers := phoneNumbers
        normalizedPhones := normalizedPhones
        imageUri := contact.imageUri })).filter
    (fun contact => decide (0 < contact.normalizedPhones.length))

/-- A directory (Firestore `users` collection) batch query: given one batch of
phone values, either fail or return the matching user documents. -/
def Directory : Type := List String → Except Unit (List UserProfile)

/-- The per-document body of `findAppUsersByPhones`: `if (userData.phone)` then
map `normalizeToE164(userData.phone)` to the user when that key is non-empty. -/
def addDoc (m : List (String × UserProfile)) (u : UserProfile) : List (String × UserProfile) :=
  if u.phone = "" then m
  else
    let normalizedPhone := normalizeToE164 u.phone
    if normalizedPhone = "" then m else setKey m normalizedPhone u

/-- One iteration of the `for (const batch of batches)` loop with its inner
`try`/`catch`: a failed batch query leaves the accumulated map unchanged. -/
def processBatch (dir : Directory) (m : List (String × UserProfile)) (batch : List String) :
    List (String × UserProfile) :=
  match dir batch with
  | Except.error _ => m
  | Except.ok docs => docs.foldl addDoc m

/-- The batching loop `for (let i = 0; i < n; i += batchSize) batches.push(slice)`
with `batchSize = 10`. -/
def makeBatches (phoneNumbers : List String) : List (List String) :=
  if h : phoneNumbers = [] then []
  else phoneNumbers.take 10 :: makeBatches (phoneNumbers.drop 10)
termination_by phoneNumbers.length
decreasing_by
  simp only [List.length_drop]
  have hpos : 0 < phoneNumbers.length := List.length_pos.mpr h
  omega

/-- Model of `findAppUsersByPhones`, instrumented: besides the phone-to-profile map, the
second component records the batch queries actually issued to the directory
collaborator, in order.  An empty input returns immediately with no query. -/
def findAppUsersByPhones (dir : Directory) (phoneNumbers : List String) :
    List (String × UserProfile) × List (List String) :=
  if phoneNumbers.length = 0 then ([], [])
  else
    (makeBatches phoneNumbers).foldl
      (fun acc batch => (processBatch dir acc.1 batch, acc.2 ++ [batch])) ([], [])

/-- A directory that behaves like `dir` except that every failing batch query
instead succeeds with no documents.  Comparing `findAppUsersByPhones` under
`dir` and under `okOrEmpty dir` expresses the failure-isolation contract: a
failed batch behaves exactly like a batch with no matches. -/
def okOrEmpty (dir : Directory) : Directory := fun batch =>
  match dir batch with
  | Except.error _ => Except.ok []
  | Except.ok docs => Except.ok docs

/-- The `for (const phone of contact.normalizedPhones) { if (appUsers[phone])
{ userProfile = appUsers[phone]; break } }` loop of `mergeContactsWithUsers`. -/
def firstMatchingProfile (appUsers : List (String × UserProfile)) : List String → Option UserProfile
  | [] => none
  | phone :: rest =>
    match getKey appUsers phone with
    | some u => some u
    | none => firstMatchingProfile appUsers rest

/-- The per-contact body of `mergeContactsWithUsers`: spread the device contact,
set `isAppUser` and `userProfile` from the first matching phone, and copy the
presence fields only when a profile was linked. -/
def mergeOne (appUsers : List (String × UserProfile)) (contact : DeviceContact) : AppContact :=
  let userProfile := firstMatchingProfile appUsers contact.normalizedPhones
  { toDeviceContact := contact
    userProfile := userProfile
    isAppUser := userProfile.isSome
    isOnline := userProfile.map (fun u => u.isOnline)
    lastSeen := userProfile.bind (fun u => u.lastSeen.map (fun t => t.seconds * 1000)) }

/-- Model of `mergeContactsWithUsers`: merge every device contact with the app-user map. -/
def mergeContactsWithUsers (deviceContacts : List DeviceContact)
    (appUsers : List (String × UserProfile)) : List AppContact :=
  deviceContacts.map (mergeOne appUsers)

/-- The `new Set` accumulation of `performSync`: all normalized phone numbers of
all contacts, deduplicated, in insertion order (as `Array.from` returns them). -/
def collectPhones (deviceContacts : List DeviceContact) : List String :=
  deviceContacts.foldl
    (fun acc contact =>
      contact.normalizedPhones.foldl
        (fun acc2 phone => if acc2.contains phone then acc2 else acc2 ++ [phone]) acc)
    []

/-- Model of `performSync`, with the device-contacts read result and the current time as
inputs and the written cache made explicit: returns the merged contact list and
the `ContactSyncCache` passed to `setCachedContacts` (`none` when the zero-contact
short-circuit returns before the cache write). -/
def performSync (dir : Directory) (deviceContacts : List DeviceContact) (now : Nat) :
    List AppContact × Option ContactSyncCache :=
  if deviceContacts.length = 0 then ([], none)
  else
    let allPhones := collectPhones deviceContacts
    let appUsers := (findAppUsersByPhones dir allPhones).1
    let cache : ContactSyncCache :=
      { lastSyncTime := now, contacts := deviceContacts, appUsers := appUsers }
    (mergeContactsWithUsers deviceContacts appUsers, some cache)

/-- Model of `isCacheValid`: `now - cache.lastSyncTime < SYNC_INTERVAL`. -/
def isCacheValid (cache : ContactSyncCache) (now : Nat) : Bool :=
  now - cache.lastSyncTime < SYNC_INTERVAL

/-- The module-level mutable state of the contacts service:
`let isSyncing = false; let syncPromise = null` (the promise is identified by
the id of the pass it belongs to). -/
structure SyncGlobals where
  isSyncing : Bool
  syncPromise : Option Nat
deriving DecidableEq

/-- The cache-hit test of `syncContacts`: performed only when `forceSync` is
false, and succeeds when a cache was read and is still valid. -/
def cacheHit (forceSync : Bool) (cacheRead : Option ContactSyncCache) (now : Nat) :
    Option ContactSyncCache :=
  if forceSync then none
  else
    match cacheRead with
    | some c => if isCacheValid c now then some c else none
    | none => none

/-- One complete call of `syncContacts` as seen by a single caller, with the
outcome of the awaited pass promise as an explicit input (`Except.error` models
a rejected promise).  The three paths of the source are in order: the attach
path (`isSyncing && syncPromise` at entry), the cache-hit return, and the
own-pass path; any rejection reaches the `catch` block, which resets
`isSyncing`/`syncPromise` and resolves to `[]`. -/
def syncContactsCall (g : SyncGlobals) (cacheRead : Option ContactSyncCache) (now : Nat)
    (forceSync : Bool) (passOutcome : Except Unit (List AppContact)) :
    SyncGlobals × List AppContact :=
  if g.isSyncing && g.syncPromise.isSome then
    match passOutcome with
    | Except.ok r => (g, r)
    | Except.error _ => ({ isSyncing := false, syncPromise := none }, [])
  else
    match cacheHit forceSync cacheRead now with
    | some c => (g, mergeContactsWithUsers c.contacts c.appUsers)
    | none =>
      match passOutcome with
      | Except.ok r => ({ isSyncing := false, syncPromise := none }, r)
      | Except.error _ => ({ isSyncing := false, syncPromise := none }, [])

/-- Substring occurrence test: does `needle` occur contiguously in the second
list?  Core of JavaScript `String.prototype.includes`. -/
def hasInfix (needle : List Char) : List Char → Bool
  | [] => needle.isEmpty
  | c :: t => needle.isPrefixOf (c :: t) || hasInfix needle t

/-- JavaScript `s.includes(sub)`. -/
def includesSubstr (s sub : String) : Bool := hasInfix sub.data s.data

/-- JavaScript `s.toLowerCase()` (ASCII case mapping suffices for the model). -/
def lowercaseString (s : String) : String := ⟨s.data.map Char.toLower⟩

/-- The filtering step of `searchContacts` (the list it filters is the result
of `getContacts()`). -/
def searchContactsFilter (q : String) (allContacts : List AppContact) : List AppContact :=
  let lowercaseQuery := lowercaseString q
  allContacts.filter (fun contact =>
    if includesSubstr (lowercaseString contact.name) lowercaseQuery then true
    else if (match contact.userProfile with
             | some up => includesSubstr (lowercaseString up.username) lowercaseQuery
             | none => false) then true
    else contact.phoneNumbers.any (fun phone => includesSubstr phone q))

end ContactsService

namespace SyncMachine

/-!
A small-step model of two concurrent callers of `syncContacts` over the shared
module-level state (`isSyncing`, `syncPromise`), for the scenario in which no
snapshot is persisted (every `getCachedContacts()` resolves to `null`).

The JavaScript scheduling model is single-threaded and cooperative: a caller
runs synchronously from one `await` to the next.  The synchronous prologue of
`syncContacts` (the `isSyncing && syncPromise` entry check) runs when the call
is made; a caller with `forceSync = false` then suspends at
`await getCachedContacts()`; setting `isSyncing = true`, installing
`syncPromise = performSync()`, and running `performSync` up to its first inner
`await` are one synchronous step.  Each started pass performs exactly one
device-contacts read (`fetchDeviceContacts`) and one directory resolution.
-/

/-- The shared mutable state plus instrumentation: `passStarts` counts the
`performSync()` invocations (one device-contacts read each); `completed` lists
the ids of the passes whose promise has resolved. -/
structure SharedSync where
  isSyncing : Bool
  syncPromise : Option Nat
  nextPassId : Nat
  passStarts : Nat
  completed : List Nat
deriving DecidableEq

/-- The control point a caller of `syncContacts` is at, between suspensions:
`entry` = about to run the synchronous prologue; `cacheWait` = suspended at
`await getCachedContacts()`; `running pid` = awaiting its own pass `pid`;
`attached pid` = awaiting the in-flight pass `pid` seen at entry; `finished r` =
returned, with `r = some pid` when the result is that of pass `pid`. -/
inductive CallerPhase where
  | entry (forceSync : Bool)
  | cacheWait
  | running (pid : Nat)
  | attached (pid : Nat)
  | finished (result : Option Nat)
deriving DecidableEq

/-- The step `isSyncing = true; syncPromise = performSync()`, one synchronous action. -/
def startPass (g : SharedSync) : SharedSync × CallerPhase :=
  ({ g with
      isSyncing := true
      syncPromise := some g.nextPassId
      nextPassId := g.nextPassId + 1
      passStarts := g.passStarts + 1 },
   CallerPhase.running g.nextPassId)

/-- One scheduling step of a single caller.  `entry`: the prologue attaches to
an in-flight promise when `isSyncing && syncPromise`, otherwise suspends at the
cache read (`forceSync = false`) or starts a pass (`forceSync = true`).
`cacheWait`: the cache read resolved to `null` (no snapshot) and the code falls
through, with no second entry check, to starting a pass.  `running pid`: the
pass resolves; the caller resets `isSyncing`/`syncPromise` and returns its
result.  `attached pid`: resolves once pass `pid` has completed. -/
def stepPhase (g : SharedSync) (ph : CallerPhase) : SharedSync × CallerPhase :=
  match ph with
  | CallerPhase.entry forceSync =>
    match g.isSyncing, g.syncPromise with
    | true, some pid => (g, CallerPhase.attached pid)
    | _, _ => if forceSync then startPass g else (g, CallerPhase.cacheWait)
  | CallerPhase.cacheWait => startPass g
  | CallerPhase.running pid =>
    ({ g with isSyncing := false, syncPromise := none, completed := pid :: g.completed },
     CallerPhase.finished (some pid))
  | CallerPhase.attached pid =>
    if g.completed.contains pid then (g, CallerPhase.finished (some pid))
    else (g, CallerPhase.attached pid)
  | CallerPhase.finished r => (g, CallerPhase.finished r)

/-- Two callers A and B over the shared state. -/
structure MachineState where
  shared : SharedSync
  callerA : CallerPhase
  callerB : CallerPhase
deriving DecidableEq

/-- Scheduler step: `true` steps caller A, `false` steps caller B. -/
def stepMachine (s : MachineState) (who : Bool) : MachineState :=
  if who then
    let gp := stepPhase s.shared s.callerA
    { s with shared := gp.1, callerA := gp.2 }
  else
    let gp := stepPhase s.shared s.callerB
    { s with shared := gp.1, callerB := gp.2 }

/-- Run a schedule (list of scheduler choices) from a state. -/
def runSchedule (s : MachineState) (sched : List Bool) : MachineState :=
  sched.foldl stepMachine s

/-- Initial state of the spec's single-flight scenario: no snapshot persisted,
caller A invokes `getContacts()` (`syncContacts(false)`), caller B invokes
`refreshContacts()` (`syncContacts(true)`). -/
def initNoSnapshot : MachineState :=
  { shared := { isSyncing := false, syncPromise := none, nextPassId := 0,
                passStarts := 0, completed := [] }
    callerA := CallerPhase.entry false
    callerB := CallerPhase.entry true }

/-- The racing interleaving: A runs its prologue and suspends at the cache
read; B runs and starts a pass; A resumes from the cache read; then both passes
complete. -/
def raceSchedule : List Bool := [true, false, true, false, true]

end SyncMachine

namespace Demo

open PhoneUtils ContactsService

/-- A directory collaborator whose every batch query succeeds with no matches. -/
def emptyDir : Directory := fun _ => Except.ok []

/-- The directory user record of the merge scenario in the spec. -/
def demoUser : UserProfile :=
  { uid := "u1", username := "noora", phone := "+97399999999", isOnline := true,
    lastSeen := some { seconds := 1000 } }

/-- A phone-to-profile mapping containing only `demoUser` under its phone. -/
def demoUsers : List (String × UserProfile) := [("+97399999999", demoUser)]

/-- The device contact of the spec's merge scenario: two normalized phones, of
which only the second matches a directory record. -/
def demoContact : DeviceContact :=
  { id := "c1", name := "Amal", firstName := none, lastName := none,
    phoneNumbers := ["1234 5678", "9999 9999"],
    normalizedPhones := ["+97312345678", "+97399999999"],
    imageUri := none }

/-- An address-book entry whose only phone number has fewer than 7 digits, so
no phone number of the entry normalizes successfully. -/
def rawBad : RawContact :=
  { id := some "c1", name := some "Bob", firstName := none, lastName := none,
    phoneNumbers := some [{ number := some "123" }], imageUri := none }

end Demo


/-! ## Helper lemmas -/

namespace PhoneUtils

/-- Every character kept by `cleanL` is a digit. -/
theorem mem_cleanL_digit (s : List Char) : ∀ c ∈ cleanL s, c.isDigit = true := by
  intro c hc
  exact List.of_mem_filter hc

/-- The function `cleanL` is the identity on all-digit strings. -/
theorem cleanL_digits (t : List Char) (h : ∀ c ∈ t, c.isDigit = true) : cleanL t = t :=
  List.filter_eq_self.mpr h

/-- A leading `'+'` is stripped by `cleanL`. -/
theorem cleanL_plus (t : List Char) : cleanL ('+' :: t) = cleanL t := by
  have : ('+' : Char).isDigit = false := by decide
  simp [cleanL, List.filter_cons, this]

/-- Output shape of `normalizeToE164L` under the default country code: empty,
or `'+'` followed by an all-digit string that either starts with one of the
known calling codes or has at least 9 digits and starts with none of them. -/
theorem normalizeToE164L_shape (x : List Char) :
    normalizeToE164L x ['9','7','3'] = [] ∨
    ∃ t, normalizeToE164L x ['9','7','3'] = '+' :: t ∧ (∀ c ∈ t, c.isDigit = true) ∧
      ((findCode commonCodes t).isSome ∨ (findCode commonCodes t = none ∧ 9 ≤ t.length)) := by
  simp only [normalizeToE164L]
  by_cases h7 : (cleanL x).length < 7
  · left; simp [h7]
  · rw [if_neg h7]
    set processed :=
      if List.isPrefixOf ['0','0'] (cleanL x) then (cleanL x).drop 2 else cleanL x with hproc
    have hdig : ∀ c ∈ processed, c.isDigit = true := by
      intro c hc
      rw [hproc] at hc
      by_cases h00 : List.isPrefixOf ['0','0'] (cleanL x)
      · rw [if_pos h00] at hc
        exact mem_cleanL_digit x c (List.drop_subset 2 (cleanL x) hc)
      · rw [if_neg h00] at hc
        exact mem_cleanL_digit x c hc
    cases hf : findCode commonCodes processed with
    | some code =>
      right
      exact ⟨processed, rfl, hdig, Or.inl (by simp [hf])⟩
    | none =>
      by_cases h87 : processed.length = 8 ∨ processed.length = 7
      · right
        rw [if_pos h87]
        refine ⟨['9','7','3'] ++ processed, rfl, ?_, Or.inl ?_⟩
        · intro c hc
          rcases List.mem_append.mp hc with hc | hc
          · fin_cases hc <;> decide
          · exact hdig c hc
        · simp [findCode, List.isPrefixOf]
      · rw [if_neg h87]
        by_cases hge : 7 ≤ processed.length
        · right
          rw [if_pos hge]
          exact ⟨processed, rfl, hdig, Or.inr ⟨hf, by omega⟩⟩
        · left
          rw [if_neg hge]

end PhoneUtils

namespace ContactsService

/-- The empty needle is a substring of every string. -/
theorem hasInfix_nil (hay : List Char) : hasInfix [] hay = true := by
  cases hay <;> simp [hasInfix, List.isPrefixOf]

/-- The first components of the instrumented batch fold ignore the trace. -/
theorem foldl_batches_fst (dir : Directory) (bs : List (List String)) :
    ∀ (m : List (String × UserProfile)) (tr : List (List String)),
      (bs.foldl (fun acc batch => (processBatch dir acc.1 batch, acc.2 ++ [batch])) (m, tr)).1 =
        bs.foldl (processBatch dir) m := by
  induction bs with
  | nil => intro m tr; rfl
  | cons b rest ih => intro m tr; exact ih (processBatch dir m b) (tr ++ [b])

/-- A failing batch contributes exactly what an empty batch result contributes. -/
theorem processBatch_okOrEmpty (dir : Directory) (m : List (String × UserProfile))
    (batch : List String) :
    processBatch dir m batch = processBatch (okOrEmpty dir) m batch := by
  unfold processBatch okOrEmpty
  cases dir batch <;> rfl

/-- Folding `processBatch` is insensitive to replacing failures by empty results. -/
theorem foldl_processBatch_okOrEmpty (dir : Directory) (bs : List (List String)) :
    ∀ m, bs.foldl (processBatch dir) m = bs.foldl (processBatch (okOrEmpty dir)) m := by
  induction bs with
  | nil => intro m; rfl
  | cons b rest ih =>
    intro m
    simp only [List.foldl_cons]
    rw [processBatch_okOrEmpty, ih]

/-- The loop `firstMatchingProfile` skips a block of phones that all miss the map. -/
theorem firstMatchingProfile_append_none (appUsers : List (String × UserProfile))
    (pre : List String) (l : List String) (h : ∀ q ∈ pre, getKey appUsers q = none) :
    firstMatchingProfile appUsers (pre ++ l) = firstMatchingProfile appUsers l := by
  induction pre with
  | nil => rfl
  | cons q rest ih =>
    have hq : getKey appUsers q = none := h q (List.mem_cons_self q rest)
    simp only [List.cons_append, firstMatchingProfile, hq]
    exact ih (fun p hp => h p (List.mem_cons_of_mem q hp))

/-- With no matching phone, `firstMatchingProfile` returns nothing. -/
theorem firstMatchingProfile_none (appUsers : List (String × UserProfile))
    (l : List String) (h : ∀ q ∈ l, getKey appUsers q = none) :
    firstMatchingProfile appUsers l = none := by
  have := firstMatchingProfile_append_none appUsers l [] h
  simpa using this

end ContactsService

/-! ## Claim theorems -/

open PhoneUtils ContactsService SyncMachine

/-- C1: under the interleaving in which caller A (`getContacts()`) suspends at
the cache read, caller B (`refreshContacts()`) then starts a pass, and A
resumes on a cache miss, the coordinator starts two `performSync` passes (two
device-contacts reads) and the two callers receive the results of different
passes — refuting the single-flight guarantee for every interleaving. -/
theorem C1_race_two_passes :
    (runSchedule initNoSnapshot raceSchedule).shared.passStarts = 2 ∧
    (runSchedule initNoSnapshot raceSchedule).callerA = CallerPhase.finished (some 1) ∧
    (runSchedule initNoSnapshot raceSchedule).callerB = CallerPhase.finished (some 0) := by
  decide

/-- C2: an address-book entry whose only phone number fails normalization
(`normalizeToE164` returns `''`, never `null`, so the `phone !== null` filter
keeps it) is NOT dropped by the `fetchDeviceContacts` pipeline: the returned
`DeviceContact` has `normalizedPhones = [""]` and hence no non-empty
normalized phone number. -/
theorem C2_failed_normalization_not_dropped :
    processDeviceContacts [Demo.rawBad] =
      [{ id := "c1", name := "Bob", firstName := none, lastName := none,
         phoneNumbers := ["123"], normalizedPhones := [""], imageUri := none }] ∧
    ∀ dc ∈ processDeviceContacts [Demo.rawBad], ∀ p ∈ dc.normalizedPhones, p = "" := by
  decide

/-- C3: `normalizeToE164("1234 5678", "973")` returns `"+12345678"`, not the
claimed `"+97312345678"`: the cleaned digits start with the known calling code
`'1'`, which preempts the default-country-code branch, contradicting the
normalizer's own documentation of `1234 5678` as a Bahrain local format. -/
theorem C3_code1_preempts_default :
    normalizeToE164 "1234 5678" "973" = "+12345678" ∧
    normalizeToE164 "1234 5678" "973" ≠ "+97312345678" := by decide

/-- C4 counterexample: a successful pass that observes zero device contacts
resolves to the empty result WITHOUT writing any snapshot (the second component
is the cache write performed by the pass), refuting "the snapshot is created or
overwritten on every successful pass, including one that observes zero device
contacts". -/
theorem C4_counterexample_zero_contacts :
    performSync Demo.emptyDir [] 5 = ([], none) := by decide

/-- C4 (amended): every successful pass that observes at least one device
contact persists the snapshot `{ lastSyncTime := now, contacts := the device
contacts read, appUsers := the directory resolution of the collected phone
set }`, overwriting any previous snapshot, and returns the merged view; a pass
that observes zero device contacts returns the empty result and performs no
snapshot write. -/
theorem C4_snapshot_on_nonempty_pass (dir : Directory)
    (deviceContacts : List DeviceContact) (now : Nat) :
    (deviceContacts ≠ [] →
      performSync dir deviceContacts now =
        (mergeContactsWithUsers deviceContacts
           (findAppUsersByPhones dir (collectPhones deviceContacts)).1,
         some { lastSyncTime := now, contacts := deviceContacts,
                appUsers := (findAppUsersByPhones dir (collectPhones deviceContacts)).1 })) ∧
    (deviceContacts = [] → performSync dir deviceContacts now = ([], none)) := by
  constructor
  · intro h
    unfold performSync
    rw [if_neg (by simp [List.length_eq_zero, h])]
  · intro h
    subst h
    rfl

/-- C4 witness: the amended statement applied to a pass observing one contact. -/
theorem C4_snapshot_witness :
    performSync Demo.emptyDir [Demo.demoContact] 7 =
      (mergeContactsWithUsers [Demo.demoContact]
         (findAppUsersByPhones Demo.emptyDir (collectPhones [Demo.demoContact])).1,
       some { lastSyncTime := 7, contacts := [Demo.demoContact],
              appUsers :=
                (findAppUsersByPhones Demo.emptyDir (collectPhones [Demo.demoContact])).1 }) :=
  (C4_snapshot_on_nonempty_pass Demo.emptyDir [Demo.demoContact] 7).1 (by decide)

/-- C7: whenever the awaited pass promise rejects — on the attach path or on
the caller's own pass (i.e. on any path that is not a pure cache hit) — the
public `syncContacts` call resolves to the empty list and resets the module
state to `isSyncing = false`, `syncPromise = null`, so a later call can start a
fresh pass. -/
theorem C7_error_resets_state (g : SyncGlobals) (cacheRead : Option ContactSyncCache)
    (now : Nat) (forceSync : Bool)
    (h : (g.isSyncing && g.syncPromise.isSome) = true ∨ cacheHit forceSync cacheRead now = none) :
    syncContactsCall g cacheRead now forceSync (Except.error ()) =
      ({ isSyncing := false, syncPromise := none }, []) := by
  unfold syncContactsCall
  rcases h with h | h
  · rw [if_pos h]
  · by_cases hg : (g.isSyncing && g.syncPromise.isSome) = true
    · rw [if_pos hg]
    · rw [if_neg hg, h]

/-- C7 witness: a failing pass from the idle, cache-less state. -/
theorem C7_error_witness :
    syncContactsCall { isSyncing := false, syncPromise := none } none 0 false
        (Except.error ()) =
      ({ isSyncing := false, syncPromise := none }, []) :=
  C7_error_resets_state { isSyncing := false, syncPromise := none } none 0 false
    (Or.inr (by decide))

/-- C10: for the empty query string, `searchContacts`' filter keeps every
contact of the list returned by `getContacts()` (the lowercased name always
contains the empty string), so the result is exactly that full list. -/
theorem C10_empty_query_returns_all (allContacts : List AppContact) :
    searchContactsFilter "" allContacts = allContacts := by
  have hinc : ∀ s : String, includesSubstr s (lowercaseString "") = true := by
    intro s
    exact hasInfix_nil s.data
  simp [searchContactsFilter, hinc]

/-- C5: merge is first-match-wins.  The merged list maps each device contact
through the per-contact merge; for a contact whose normalized-phone list splits
as `pre ++ phone :: rest` with every phone of `pre` absent from the mapping and
`phone` mapped to `u`, the merged contact links exactly `u`, sets
`isAppUser = true` and copies the presence fields from `u`; when no phone
matches, no record is linked, `isAppUser = false` and the presence fields stay
absent. -/
theorem C5_first_match_wins (appUsers : List (String × UserProfile))
    (contacts : List DeviceContact) (contact : DeviceContact) :
    mergeContactsWithUsers contacts appUsers = contacts.map (mergeOne appUsers) ∧
    (∀ pre phone rest u,
      contact.normalizedPhones = pre ++ phone :: rest →
      (∀ q ∈ pre, getKey appUsers q = none) →
      getKey appUsers phone = some u →
      mergeOne appUsers contact =
        { toDeviceContact := contact, userProfile := some u, isAppUser := true,
          isOnline := some u.isOnline,
          lastSeen := u.lastSeen.map (fun t => t.seconds * 1000) }) ∧
    ((∀ q ∈ contact.normalizedPhones, getKey appUsers q = none) →
      mergeOne appUsers contact =
        { toDeviceContact := contact, userProfile := none, isAppUser := false,
          isOnline := none, lastSeen := none }) := by
  refine ⟨rfl, ?_, ?_⟩
  · intro pre phone rest u hsplit hpre hphone
    have hfirst : firstMatchingProfile appUsers contact.normalizedPhones = some u := by
      rw [hsplit, firstMatchingProfile_append_none appUsers pre _ hpre]
      simp [firstMatchingProfile, hphone]
    simp [mergeOne, hfirst]
  · intro hnone
    have hfirst : firstMatchingProfile appUsers contact.normalizedPhones = none :=
      firstMatchingProfile_none appUsers _ hnone
    simp [mergeOne, hfirst]

/-- C5 witness: the spec's merge scenario — phones
`["+97312345678", "+97399999999"]` where only the second matches — links the
record of the second phone with `isAppUser = true` and its presence fields. -/
theorem C5_first_match_witness :
    mergeOne Demo.demoUsers Demo.demoContact =
      { toDeviceContact := Demo.demoContact, userProfile := some Demo.demoUser,
        isAppUser := true, isOnline := some true, lastSeen := some 1000000 } :=
  (C5_first_match_wins Demo.demoUsers [] Demo.demoContact).2.1
    ["+97312345678"] "+97399999999" [] Demo.demoUser (by decide) (by decide) (by decide)

/-- C6: batch failures are isolated.  The empty input resolves to the empty
mapping with no batch query issued to the directory collaborator; and for every
directory behaviour and every input, the resulting mapping is exactly the one
obtained when each failing batch query is replaced by a successful query with
no matches — a failed batch contributes no entries, aborts nothing, and every
other batch's matches are included unchanged. -/
theorem C6_batch_failures_isolated :
    (∀ dir : Directory, findAppUsersByPhones dir [] = ([], [])) ∧
    (∀ (dir : Directory) (phoneNumbers : List String),
      (findAppUsersByPhones dir phoneNumbers).1 =
        (findAppUsersByPhones (okOrEmpty dir) phoneNumbers).1) := by
  constructor
  · intro dir; rfl
  · intro dir phoneNumbers
    unfold findAppUsersByPhones
    by_cases h0 : phoneNumbers.length = 0
    · rw [if_pos h0, if_pos h0]
    · rw [if_neg h0, if_neg h0, foldl_batches_fst, foldl_batches_fst,
        foldl_processBatch_okOrEmpty]

/-- C8 counterexample: `normalizeToE164 "0012345"` returns the non-empty
canonical string `"+12345"` (the `00` strip leaves 5 digits which start with
the calling code `'1'`), but re-normalizing that output yields `""`, so
normalize is not idempotent on all successfully normalized inputs. -/
theorem C8_idem_counterexample :
    normalizeToE164 "0012345" ≠ "" ∧
    normalizeToE164 (normalizeToE164 "0012345") ≠ normalizeToE164 "0012345" := by decide

/-- C8 (amended): `normalizeToE164` under the default country code is
idempotent on every canonical output that has at least 7 digits after the
leading `'+'` and whose digit part does not begin with `"00"`: re-normalizing
such an output returns it unchanged. -/
theorem C8_idem_on_wellformed (x : String)
    (h1 : normalizeToE164 x ≠ "")
    (h2 : 8 ≤ (normalizeToE164 x).data.length)
    (h3 : List.isPrefixOf ['+','0','0'] (normalizeToE164 x).data = false) :
    normalizeToE164 (normalizeToE164 x) = normalizeToE164 x := by
  have hdata : (normalizeToE164 x).data = normalizeToE164L x.data ['9','7','3'] := rfl
  rcases normalizeToE164L_shape x.data with hshape | ⟨t, ht, hdig, hcase⟩
  · exfalso
    apply h1
    apply String.ext
    rw [hdata, hshape]
  · have hc : (normalizeToE164 x).data = '+' :: t := by rw [hdata, ht]
    apply String.ext
    have hgoal : (normalizeToE164 (normalizeToE164 x)).data =
        normalizeToE164L ('+' :: t) ['9','7','3'] := by
      show normalizeToE164L (normalizeToE164 x).data ['9','7','3'] =
        normalizeToE164L ('+' :: t) ['9','7','3']
      rw [hc]
    rw [hgoal, hc]
    -- compute the second normalization pass on '+' :: t
    have hclean : cleanL ('+' :: t) = t := by
      rw [cleanL_plus, cleanL_digits t hdig]
    have hlen : 7 ≤ t.length := by
      rw [hc] at h2
      simpa using Nat.le_of_succ_le_succ h2
    have h00 : List.isPrefixOf ['0','0'] t = false := by
      rw [hc] at h3
      simpa [List.isPrefixOf] using h3
    simp only [normalizeToE164L, hclean]
    rw [if_neg (by omega), if_neg (by simp [h00])]
    rcases hcase with hsome | ⟨hnone, hlen9⟩
    · rcases Option.isSome_iff_exists.mp hsome with ⟨code, hcode⟩
      rw [hcode]
    · rw [hnone]
      rw [if_neg (by omega), if_pos hlen]

/-- C8 witness: the amended idempotence applied to `"12345678"`. -/
theorem C8_idem_witness :
    normalizeToE164 (normalizeToE164 "12345678") = normalizeToE164 "12345678" :=
  C8_idem_on_wellformed "12345678" (by decide) (by decide) (by decide)

/-- The test `arePhoneNumbersEqual` holds exactly when the two variant sets intersect. -/
theorem arePhoneNumbersEqual_iff_inter (a b : String) :
    arePhoneNumbersEqual a b = true ↔
      ∃ v, v ∈ generatePhoneVariants a ∧ v ∈ generatePhoneVariants b := by
  simp [arePhoneNumbersEqual, List.any_eq_true]

/-- C9 counterexample: `arePhoneNumbersEqual` is not reflexive on all inputs —
the empty string (whose variant set is empty) is not equal to itself. -/
theorem C9_not_reflexive : arePhoneNumbersEqual "" "" = false := by decide

/-- C9 (amended): `arePhoneNumbersEqual` is symmetric for any two inputs and
returns true exactly when the variant sets of the two inputs intersect; it is
reflexive exactly on the inputs whose variant set is non-empty (those that
normalize to a non-empty canonical form) — on inputs whose normalization fails
it returns false even for the input against itself. -/
theorem C9_equals_properties :
    (∀ a : String, generatePhoneVariants a ≠ [] → arePhoneNumbersEqual a a = true) ∧
    (∀ a b : String, arePhoneNumbersEqual a b = arePhoneNumbersEqual b a) ∧
    (∀ a b : String, arePhoneNumbersEqual a b = true ↔
      ∃ v, v ∈ generatePhoneVariants a ∧ v ∈ generatePhoneVariants b) := by
  refine ⟨?_, ?_, fun a b => arePhoneNumbersEqual_iff_inter a b⟩
  · intro a ha
    rcases List.exists_mem_of_ne_nil _ ha with ⟨v, hv⟩
    exact (arePhoneNumbersEqual_iff_inter a a).mpr ⟨v, hv, hv⟩
  · intro a b
    cases hab : arePhoneNumbersEqual a b <;> cases hba : arePhoneNumbersEqual b a <;> try rfl
    · rcases (arePhoneNumbersEqual_iff_inter b a).mp hba with ⟨v, hvb, hva⟩
      have htrue := (arePhoneNumbersEqual_iff_inter a b).mpr ⟨v, hva, hvb⟩
      rw [hab] at htrue
      exact absurd htrue (by simp)
    · rcases (arePhoneNumbersEqual_iff_inter a b).mp hab with ⟨v, hva, hvb⟩
      have htrue := (arePhoneNumbersEqual_iff_inter b a).mpr ⟨v, hvb, hva⟩
      rw [hba] at htrue
      exact absurd htrue (by simp)

/-- C9 witness: reflexivity on an input that normalizes successfully. -/
theorem C9_reflexive_witness :
    arePhoneNumbersEqual "12345678" "12345678" = true :=
  C9_equals_properties.1 "12345678" (by decide)
